import Mathlib

/-
  Verification of the widget core of the kiteaudio repository
  (Slider widget in src/unnamed/part_000, LiveDropMenu in
  src/src/widgets/LiveDropMenu.js) against its specification.

  JavaScript numbers are modelled as rationals (ℚ); observers are
  modelled by identity tags (ℕ); DOM event targets and document-level
  listeners are modelled by small inductive types.
-/

/- ===================== JS numeric primitives ===================== -/

/-- Modelled from the spec: the Slider's value transform
`(num) => num.toFixed(0)` (the Constraint class in util/constraint is not in
src/). ECMAScript `Number.prototype.toFixed(0)` rounds to the nearest
integer, ties away from zero (the spec calls it "fixed-decimal rounding");
modelled as a rational-valued rounding. -/
def jsToFixed0 (q : ℚ) : ℚ :=
  if q < 0 then -((round (-q) : ℤ) : ℚ) else ((round q : ℤ) : ℚ)

/-- `Math.trunc`: rounds toward zero. -/
def jsTrunc (q : ℚ) : ℤ :=
  if q < 0 then ⌈q⌉ else ⌊q⌋

/-- Modelled from the spec: clamping a numeric input into `[min, max]`
(Constraint class, util/constraint, not in src/). -/
def clampQ (lo hi x : ℚ) : ℚ := max lo (min x hi)

/-- Modelled from the spec: `Constraint.apply(rawValue)` for the Slider's
value Constraint `{min, max, transform: (num) => num.toFixed(0)}` set up in
`_initStateConstraints` (src/unnamed/part_000 lines 53-59): "clamp rawValue
into [min, max]; if a transform is present, apply it to the clamped value"
(spec 4.1). -/
def constraintApply (lo hi x : ℚ) : ℚ := jsToFixed0 (clampQ lo hi x)

theorem round_mono_q {p q : ℚ} (h : p ≤ q) : round p ≤ round q := by
  rw [round_eq, round_eq]
  exact Int.floor_le_floor (by linarith)

theorem jsToFixed0_intCast (n : ℤ) : jsToFixed0 ((n : ℚ)) = ((n : ℚ)) := by
  have h1 : (-((n : ℚ))) = (((-n : ℤ) : ℚ)) := by push_cast; ring
  by_cases h : ((n : ℚ)) < 0
  · simp only [jsToFixed0, if_pos h]
    rw [h1, round_intCast]
    push_cast
    ring
  · simp only [jsToFixed0, if_neg h, round_intCast]

theorem jsToFixed0_isInt (q : ℚ) : ∃ m : ℤ, jsToFixed0 q = ((m : ℚ)) := by
  by_cases h : q < 0
  · exact ⟨-round (-q), by simp only [jsToFixed0, if_pos h, Int.cast_neg]⟩
  · exact ⟨round q, by simp only [jsToFixed0, if_neg h]⟩

theorem jsToFixed0_mono {p q : ℚ} (h : p ≤ q) : jsToFixed0 p ≤ jsToFixed0 q := by
  by_cases hp : p < 0 <;> by_cases hq : q < 0
  · simp only [jsToFixed0, if_pos hp, if_pos hq]
    have h1 : round (-q) ≤ round (-p) := round_mono_q (by linarith)
    have h2 : ((round (-q) : ℤ) : ℚ) ≤ ((round (-p) : ℤ) : ℚ) := Int.cast_le.mpr h1
    linarith
  · simp only [jsToFixed0, if_pos hp, if_neg hq]
    have h1 : (0 : ℤ) ≤ round (-p) := by
      have : round (0 : ℚ) ≤ round (-p) := round_mono_q (by linarith)
      rwa [round_zero] at this
    have h2 : (0 : ℤ) ≤ round q := by
      have : round (0 : ℚ) ≤ round q := round_mono_q (by linarith)
      rwa [round_zero] at this
    have h3 : ((0 : ℤ) : ℚ) ≤ ((round (-p) : ℤ) : ℚ) := Int.cast_le.mpr h1
    have h4 : ((0 : ℤ) : ℚ) ≤ ((round q : ℤ) : ℚ) := Int.cast_le.mpr h2
    simp only [Int.cast_zero] at h3 h4
    linarith
  · exact absurd (lt_of_le_of_lt h hq) hp
  · simp only [jsToFixed0, if_neg hp, if_neg hq]
    exact Int.cast_le.mpr (round_mono_q h)

theorem le_clampQ (lo hi x : ℚ) : lo ≤ clampQ lo hi x := le_max_left _ _

theorem clampQ_le (lo hi x : ℚ) (h : lo ≤ hi) : clampQ lo hi x ≤ hi :=
  max_le h (min_le_right _ _)

theorem clampQ_eq_of_mem (lo hi x : ℚ) (h1 : lo ≤ x) (h2 : x ≤ hi) :
    clampQ lo hi x = x := by
  unfold clampQ
  rw [min_eq_left h2, max_eq_right h1]

/-- C6: `Constraint.apply` is idempotent: for every numeric `x`,
`Constraint.apply(Constraint.apply(x)) == Constraint.apply(x)` for the
Slider's value Constraint (clamp into `[minVal, maxVal]`, then the
`(num) => num.toFixed(0)` transform), for any bounds with `minVal ≤ maxVal`. -/
theorem constraintApply_idem (lo hi x : ℚ) (h : lo ≤ hi) :
    constraintApply lo hi (constraintApply lo hi x) = constraintApply lo hi x := by
  obtain ⟨k, hk⟩ := jsToFixed0_isInt (clampQ lo hi x)
  have hclo : lo ≤ clampQ lo hi x := le_clampQ lo hi x
  have hchi : clampQ lo hi x ≤ hi := clampQ_le lo hi x h
  unfold constraintApply
  by_cases h1 : ((k : ℚ)) < lo
  · -- the rounded value fell below the range; re-clamping yields lo
    have hklo : ((k : ℚ)) ≤ lo := le_of_lt h1
    have hcl : clampQ lo hi (jsToFixed0 (clampQ lo hi x)) = lo := by
      rw [hk]
      unfold clampQ
      rw [min_eq_left (le_trans hklo h), max_eq_left hklo]
    rw [hcl]
    have hA : jsToFixed0 lo ≤ jsToFixed0 (clampQ lo hi x) := jsToFixed0_mono hclo
    have hB : jsToFixed0 (clampQ lo hi x) ≤ jsToFixed0 lo := by
      rw [hk]
      calc ((k : ℚ)) = jsToFixed0 ((k : ℚ)) := (jsToFixed0_intCast k).symm
        _ ≤ jsToFixed0 lo := jsToFixed0_mono hklo
    linarith
  · by_cases h2 : hi < ((k : ℚ))
    · -- the rounded value exceeded the range; re-clamping yields hi
      have hkhi : hi ≤ ((k : ℚ)) := le_of_lt h2
      have hcl : clampQ lo hi (jsToFixed0 (clampQ lo hi x)) = hi := by
        rw [hk]
        unfold clampQ
        rw [min_eq_right hkhi, max_eq_right h]
      rw [hcl]
      have hA : jsToFixed0 (clampQ lo hi x) ≤ jsToFixed0 hi := jsToFixed0_mono hchi
      have hB : jsToFixed0 hi ≤ jsToFixed0 (clampQ lo hi x) := by
        rw [hk]
        calc jsToFixed0 hi ≤ jsToFixed0 ((k : ℚ)) := jsToFixed0_mono hkhi
          _ = ((k : ℚ)) := jsToFixed0_intCast k
      linarith
    · -- the rounded value is already in range and is an integer: a fixed point
      have hinr : clampQ lo hi (jsToFixed0 (clampQ lo hi x)) = jsToFixed0 (clampQ lo hi x) := by
        rw [hk]
        exact clampQ_eq_of_mem lo hi _ (le_of_not_lt h1) (le_of_not_lt h2)
      rw [hinr, hk, jsToFixed0_intCast]

/-- Witness for C6 at the Slider defaults `minVal = 0`, `maxVal = 127`
and input `x = 200.5`. -/
theorem constraintApply_idem_witness :
    (0 : ℚ) ≤ 127 ∧
      constraintApply 0 127 (constraintApply 0 127 (401 / 2)) =
        constraintApply 0 127 (401 / 2) :=
  ⟨by norm_num, constraintApply_idem 0 127 (401 / 2) (by norm_num)⟩

/- ===================== Slider: state and the dual mutation protocol ===================== -/

/-- Slider widget state: options (`minVal`, `maxVal` from `_initOptions`,
src/unnamed/part_000 lines 34-46), the single constrained state field `val`
(`_initState`, lines 66-69), and the observer registry, with observers
modelled by identity tags. -/
structure SliderState where
  minVal : ℚ
  maxVal : ℚ
  val : ℚ
  observers : List Nat
deriving DecidableEq

/-- Modelled from the spec: `Widget.setState(delta)` (the Widget base class
ui/core/widget is not in src/): "validates delta through the ConstraintSpec,
merges into current state, re-renders ..., then notifies all observers" with
the new value (spec 4.2). The Slider's ConstraintSpec constrains `val` with
`Constraint({min: minVal, max: maxVal, transform: (num) => num.toFixed(0)})`
(src/unnamed/part_000 lines 53-59). Returns the new state and the list of
(observer, notified value) callback invocations, in order. -/
def setState (s : SliderState) (newVal : ℚ) : SliderState × List (Nat × ℚ) :=
  let v := constraintApply s.minVal s.maxVal newVal
  ({ s with val := v }, s.observers.map (fun ob => (ob, v)))

/-- Modelled from the spec: `Widget.setInternalState(delta)` (ui/core/widget
not in src/): "identical validation and re-render, but does not notify
observers" (spec 4.2). -/
def setInternalState (s : SliderState) (newVal : ℚ) : SliderState × List (Nat × ℚ) :=
  let v := constraintApply s.minVal s.maxVal newVal
  ({ s with val := v }, [])

/-- `Slider.setVal(newVal)` delegates to `setState({val: newVal})`
(src/unnamed/part_000 lines 210-212). -/
def setVal (s : SliderState) (newVal : ℚ) : SliderState × List (Nat × ℚ) :=
  setState s newVal

/-- `Slider.setInternalVal(newVal)` delegates to `setInternalState({val: newVal})`
(src/unnamed/part_000 lines 200-202). -/
def setInternalVal (s : SliderState) (newVal : ℚ) : SliderState × List (Nat × ℚ) :=
  setInternalState s newVal

/-- `Slider.getVal()` returns `state.val` (src/unnamed/part_000 lines 190-192). -/
def getVal (s : SliderState) : ℚ := s.val

/-- A Slider as freshly constructed: `_initState` sets `state.val = o.minVal`
(src/unnamed/part_000 lines 66-69). -/
def newSlider (lo hi : ℚ) (obs : List Nat) : SliderState :=
  { minVal := lo, maxVal := hi, val := lo, observers := obs }

/-- Run a finite sequence of mutations; `true` marks a `setState` call and
`false` a `setInternalState` call, each with its numeric delta. -/
def runOps (s : SliderState) : List (Bool × ℚ) → SliderState
  | [] => s
  | (ext, v) :: rest =>
      runOps (if ext then (setState s v).1 else (setInternalState s v).1) rest

/-- C1: with at least one subscribed observer, `setInternalState({val: v})`
invokes no observer callback, while `setState({val: v})` invokes each
subscribed observer exactly once, in registry order, with the validated value
of `v`; `Slider.setInternalVal` and `Slider.setVal` delegate to these two
paths respectively. -/
theorem mutation_notification_asymmetry (s : SliderState) (v : ℚ)
    (hobs : s.observers ≠ []) :
    (setInternalState s v).2 = [] ∧
      (setState s v).2 =
        s.observers.map (fun ob => (ob, constraintApply s.minVal s.maxVal v)) ∧
      (setState s v).2.length = s.observers.length ∧
      setInternalVal s v = setInternalState s v ∧
      setVal s v = setState s v := by
  refine ⟨rfl, rfl, ?_, rfl, rfl⟩
  simp [setState]

/-- Witness for C1: a Slider with one observer, `v = 63.4`. -/
theorem mutation_notification_asymmetry_witness :
    (newSlider 0 127 [7]).observers ≠ [] ∧
      (setInternalState (newSlider 0 127 [7]) (317 / 5)).2 = [] ∧
      (setState (newSlider 0 127 [7]) (317 / 5)).2 =
        (newSlider 0 127 [7]).observers.map
          (fun ob => (ob, constraintApply 0 127 (317 / 5))) := by
  have h := mutation_notification_asymmetry (newSlider 0 127 [7]) (317 / 5)
    (by decide)
  exact ⟨by decide, h.1, h.2.1⟩

/- ===================== C3: range invariant ===================== -/

theorem constraintApply_mem_int (lo hi : ℤ) (h : ((lo : ℚ)) ≤ ((hi : ℚ))) (v : ℚ) :
    ((lo : ℚ)) ≤ constraintApply lo hi v ∧ constraintApply lo hi v ≤ ((hi : ℚ)) := by
  constructor
  · calc ((lo : ℚ)) = jsToFixed0 ((lo : ℚ)) := (jsToFixed0_intCast lo).symm
      _ ≤ jsToFixed0 (clampQ lo hi v) := jsToFixed0_mono (le_clampQ _ _ _)
  · calc jsToFixed0 (clampQ lo hi v) ≤ jsToFixed0 ((hi : ℚ)) :=
        jsToFixed0_mono (clampQ_le _ _ _ h)
      _ = ((hi : ℚ)) := jsToFixed0_intCast hi

theorem runOps_range_aux (lo hi : ℤ) (h : ((lo : ℚ)) ≤ ((hi : ℚ)))
    (ops : List (Bool × ℚ)) :
    ∀ s : SliderState, s.minVal = ((lo : ℚ)) → s.maxVal = ((hi : ℚ)) →
      ((lo : ℚ)) ≤ s.val → s.val ≤ ((hi : ℚ)) →
      ((lo : ℚ)) ≤ (runOps s ops).val ∧ (runOps s ops).val ≤ ((hi : ℚ)) := by
  induction ops with
  | nil => exact fun s _ _ h1 h2 => ⟨h1, h2⟩
  | cons op rest ih =>
    intro s hlo hhi h1 h2
    obtain ⟨ext, v⟩ := op
    have hmem := constraintApply_mem_int lo hi h v
    cases ext with
    | true =>
      simp only [runOps, if_pos]
      exact ih _ (by simp [setState, hlo]) (by simp [setState, hhi])
        (by simp [setState, hlo, hhi]; exact hmem.1)
        (by simp [setState, hlo, hhi]; exact hmem.2)
    | false =>
      simp only [runOps, if_neg]
      exact ih _ (by simp [setInternalState, hlo]) (by simp [setInternalState, hhi])
        (by simp [setInternalState, hlo, hhi]; exact hmem.1)
        (by simp [setInternalState, hlo, hhi]; exact hmem.2)

/-- C3 counterexample: the claim as stated fails for a Slider constructed with
the valid options `minVal = 0`, `maxVal = 1/2` (`minVal ≤ maxVal`, both
numeric; nothing in the code or spec restricts the bounds to integers): the
single call `setState({val: 1/2})` clamps `1/2` to itself and the
`toFixed(0)` transform rounds it to `1`, so `getVal()` returns `1 > maxVal`. -/
theorem slider_range_counterexample :
    getVal (runOps (newSlider 0 (1 / 2) []) [(true, 1 / 2)]) = 1 ∧
      ¬ getVal (runOps (newSlider 0 (1 / 2) []) [(true, 1 / 2)]) ≤ (1 / 2 : ℚ) := by
  have h : getVal (runOps (newSlider 0 (1 / 2) []) [(true, 1 / 2)]) = 1 := by
    simp only [getVal, runOps, newSlider, setState, constraintApply, clampQ, jsToFixed0]
    norm_num [round_eq]
  refine ⟨h, ?_⟩
  rw [h]
  norm_num

/-- C3 (amended): for every Slider whose `minVal` and `maxVal` are integers
with `minVal ≤ maxVal` (as in the defaults 0 and 127), after any finite
sequence of `setState`/`setInternalState` calls with arbitrary numeric
deltas, `getVal()` returns a value within `[minVal, maxVal]`. -/
theorem slider_range_invariant (lo hi : ℤ) (obs : List Nat)
    (h : ((lo : ℚ)) ≤ ((hi : ℚ))) (ops : List (Bool × ℚ)) :
    ((lo : ℚ)) ≤ getVal (runOps (newSlider lo hi obs) ops) ∧
      getVal (runOps (newSlider lo hi obs) ops) ≤ ((hi : ℚ)) :=
  runOps_range_aux lo hi h ops (newSlider lo hi obs) rfl rfl le_rfl h

/-- Witness for C3 (amended): defaults `minVal = 0`, `maxVal = 127`, one
observer, a mixed sequence of external and internal mutations with deltas
far outside the range. -/
theorem slider_range_invariant_witness :
    ((0 : ℤ) : ℚ) ≤ getVal (runOps (newSlider ((0 : ℤ)) ((127 : ℤ)) [7])
        [(true, 999), (false, -5), (true, 63)]) ∧
      getVal (runOps (newSlider ((0 : ℤ)) ((127 : ℤ)) [7])
        [(true, 999), (false, -5), (true, 63)]) ≤ ((127 : ℤ) : ℚ) :=
  slider_range_invariant 0 127 [7] (by norm_num) [(true, 999), (false, -5), (true, 63)]

/- ===================== Slider geometry (C5) ===================== -/

/-- `dims.offsetTop` (src/unnamed/part_000 line 74). -/
def offsetTopDim : ℚ := 5

/-- `dims.offsetBottom` (src/unnamed/part_000 line 73). -/
def offsetBottomDim : ℚ := 5

/-- `_calcSliderBodyHeight()` = height − offsetTop − offsetBottom
(src/unnamed/part_000 lines 237-239), with the widget's pixel height as a
parameter. -/
def calcSliderBodyHeight (height : ℚ) : ℚ := height - offsetTopDim - offsetBottomDim

/-- The `y0` coordinate computed by `_calcSliderHandlePoints()`
(src/unnamed/part_000 line 261):
`(bodyHeight - (val / (maxVal - minVal)) * bodyHeight) + offsetBottom`. -/
def calcSliderHandleY0 (height lo hi val : ℚ) : ℚ :=
  (calcSliderBodyHeight height - val / (hi - lo) * calcSliderBodyHeight height)
    + offsetBottomDim

/-- Modelled from the spec: `_getRelativeY` (Widget base class, ui/core/widget,
not in src/) converts a client Y coordinate into a widget-local one; modelled
as the identity, i.e. all coordinates are taken widget-local. -/
def getRelativeY (y : ℚ) : ℚ := y

/-- `_calcTouchVal(y)` (src/unnamed/part_000 lines 278-284):
`bodyY = (height - relativeY(y)) - offsetBottom`;
`touchVal = (bodyY / bodyHeight) * (maxVal - minVal) + minVal`. -/
def calcTouchVal (height lo hi y : ℚ) : ℚ :=
  (((height - getRelativeY y) - offsetBottomDim) / calcSliderBodyHeight height)
      * (hi - lo) + lo

/-- Supporting lemma: the round trip systematically lands at `v + minVal`,
because `_calcSliderHandlePoints` divides `val` (instead of `val - minVal`)
by the range, while `_calcTouchVal` adds `minVal` back. -/
theorem calcTouchVal_handleY0 (height lo hi v : ℚ)
    (hrange : hi - lo ≠ 0) (hbody : calcSliderBodyHeight height ≠ 0) :
    calcTouchVal height lo hi (calcSliderHandleY0 height lo hi v) = v + lo := by
  unfold calcTouchVal calcSliderHandleY0 getRelativeY calcSliderBodyHeight
    offsetTopDim offsetBottomDim
  unfold calcSliderBodyHeight offsetTopDim offsetBottomDim at hbody
  field_simp
  ring

/-- C5 (code bug): for the Slider with `minVal = 10`, `maxVal = 20` and widget
pixel height 110 (body height 100), the handle `y0` for the value `v = 10`
is pixel 5 (the body's very top, which belongs to the maximum), and mapping
that pixel back through `_calcTouchVal` yields 20, not 10: the round trip
returns `v + minVal`, which is outside every rounding tolerance whenever
`minVal ≠ 0`. -/
theorem slider_roundtrip_code_bug :
    calcSliderHandleY0 110 10 20 10 = 5 ∧
      calcTouchVal 110 10 20 (calcSliderHandleY0 110 10 20 10) = 20 ∧
      ¬ |calcTouchVal 110 10 20 (calcSliderHandleY0 110 10 20 10) - 10| ≤ 1 / 2 := by
  norm_num [calcTouchVal, calcSliderHandleY0, getRelativeY, calcSliderBodyHeight,
    offsetTopDim, offsetBottomDim, abs]

/- ===================== Slider document-level listeners (C2) ===================== -/

/-- The four document-body listeners the Slider attaches while dragging,
identified by (event type, handler function) as the DOM does:
`("mousemove", moveHandle)`, `("touchmove", moveHandle)`,
`("mouseup", releaseHandle)`, `("touchend", releaseHandle)`
(src/unnamed/part_000 lines 123-126). -/
inductive SlDocListener
  | mousemoveMove
  | touchmoveMove
  | mouseupRelease
  | touchendRelease
deriving DecidableEq

/-- DOM `addEventListener`: a no-op when the same (event, callback) pair is
already registered, else appends. -/
def addListener {α : Type} [DecidableEq α] (l : List α) (x : α) : List α :=
  if x ∈ l then l else l ++ [x]

/-- DOM `removeEventListener`: removes the matching (event, callback) entry,
a no-op when absent. -/
def removeListener {α : Type} [DecidableEq α] (l : List α) (x : α) : List α :=
  l.filter (fun y => decide (y ≠ x))

/-- Effect of `touchHandle` (drag start, src/unnamed/part_000 lines 119-127)
on the document-body listener list: attaches the four move/release
listeners. (`touchBody`, lines 109-117, calls `setState` and then delegates
to `touchHandle`.) -/
def touchHandleListeners (l : List SlDocListener) : List SlDocListener :=
  addListener (addListener (addListener (addListener l
    SlDocListener.mousemoveMove) SlDocListener.touchmoveMove)
    SlDocListener.mouseupRelease) SlDocListener.touchendRelease

/-- Effect of `moveHandle` (src/unnamed/part_000 lines 129-135) on the
listener list: none — it only recomputes the value and calls `setState`. -/
def moveHandleListeners (l : List SlDocListener) : List SlDocListener := l

/-- Effect of `releaseHandle` (src/unnamed/part_000 lines 137-145) on the
listener list: removes the four move/release listeners. -/
def releaseHandleListeners (l : List SlDocListener) : List SlDocListener :=
  removeListener (removeListener (removeListener (removeListener l
    SlDocListener.touchmoveMove) SlDocListener.mousemoveMove)
    SlDocListener.mouseupRelease) SlDocListener.touchendRelease

/-- A document-level pointer-up reaches `releaseHandle` only while that
listener is attached. -/
def sliderDispatchUp (l : List SlDocListener) : List SlDocListener :=
  if SlDocListener.mouseupRelease ∈ l then releaseHandleListeners l else l

/-- A document-level pointer-move reaches `moveHandle` only while attached;
either way the listener list is unchanged. -/
def sliderDispatchMove (l : List SlDocListener) : List SlDocListener :=
  if SlDocListener.mousemoveMove ∈ l then moveHandleListeners l else l

/- ===================== LiveDropMenu: data model ===================== -/

/-- A DOM bounding rectangle; only the fields the constructor reads
(`getBoundingClientRect().left` / `.bottom`, LiveDropMenu.js lines 45-46). -/
structure Rect where
  left : ℚ
  bottom : ℚ
deriving DecidableEq

/-- Possible targets of a pointer event, as the menu's listeners distinguish
them: the closed-box canvas (`_canvas`), the drop-down overlay canvas
(`_ddCanvas`), or anything else on the page. -/
inductive Target
  | canvas
  | ddCanvas
  | other
deriving DecidableEq

/-- The two document-level listeners LiveDropMenu ever attaches, identified
by (event type, handler function): `("mousedown", secondMouseDownListener)`
(line 165) and `("mouseup", mouseUpListener)` (line 170). -/
inductive DdDocListener
  | mousedownSecond
  | mouseupUp
deriving DecidableEq

/-- JavaScript `a || b` over possibly-absent option values (absent and
falsy modelled as `none`). -/
def jsOr {α : Type} (a b : Option α) : Option α :=
  match a with
  | some x => some x
  | none => b

theorem jsOr_none {α : Type} (a : Option α) : jsOr a none = a := by
  cases a <;> rfl

/-- JavaScript `parseInt` on strings such as `'12px'`: the numeric value of
the longest digit prefix (sufficient for the non-negative pixel sizes used
here). -/
def jsParseIntLeading (s : String) : ℕ :=
  (s.data.takeWhile Char.isDigit).foldl (fun a c => a * 10 + (c.toNat - 48)) 0

/-- The recognized LiveDropMenu construction options (constructor lines
10-27); each key either supplied or absent. -/
structure MenuOptions where
  menuItems : Option (List String) := none
  backgroundColor : Option String := none
  fontColor : Option String := none
  fontSize : Option String := none
  fontFamily : Option String := none
  menuItemFontSize : Option String := none
  menuItemFontFamily : Option String := none
  selectedItemBackgroundColor : Option String := none
  selectedItemFontColor : Option String := none
  UIbackgroundColor : Option String := none
  UIfontColor : Option String := none
  UIfontSize : Option String := none
  UIfontFamily : Option String := none
  UImenuItemFontSize : Option String := none
  UImenuItemFontFamily : Option String := none
  UIselectedItemBackgroundColor : Option String := none
  UIselectedItemFontColor : Option String := none
deriving DecidableEq

def defaultBackgroundColor : String := "#555"

def defaultFontColor : String := "#bbb"

def defaultFontSize : String := "12px"

def defaultFontFamily : String := "Arial"

def defaultSelectedItemBackgroundColor : String := "#ccc"

def defaultSelectedItemFontColor : String := "#fff"

/-- LiveDropMenu instance state: menu items and selection (lines 15-17),
computed UI style fields (lines 20-27, keeping the source's field names,
including the `FntFamily` one of line 25), observers as (context, func)
identity pairs (line 12), drop-down canvas visibility and absolute position
(lines 43-46), and the widget's document-level listeners plus the overlay's
own `mousemove` listener (lines 154-193). -/
structure LiveDropMenu where
  menuItems : List String
  selectedItemNum : ℤ
  hoverItemNum : ℤ
  observers : List (Nat × Nat)
  UIbackgroundColor : String
  UIfontColor : String
  UIfontSize : String
  UIfontFamily : String
  UImenuItemFontSize : String
  UImenuItemFntFamily : String
  UIselectedItemBackgroundColor : String
  UIselectedItemFontColor : String
  ddVisible : Bool
  ddLeft : ℚ
  ddTop : ℚ
  docListeners : List DdDocListener
  ddMousemoveAttached : Bool
deriving DecidableEq

/-- `_getMenuItemHeight()` (lines 144-147):
`parseInt(this._UImenuItemFontSize) * 2`. -/
def getMenuItemHeight (m : LiveDropMenu) : ℕ :=
  jsParseIntLeading m.UImenuItemFontSize * 2

/-- The LiveDropMenu constructor (lines 10-51): defaults and `||`-fallbacks
for the style options exactly as written — note line 27 falls back to
`o.UIselectedItemBackgroundColor` for the selected-item FONT color;
`_selectedItemNum = 0`, `_hoverItemNum = -1`, empty observer list; the
drop-down canvas starts hidden and its absolute position is set, once, from
the box canvas's bounding rectangle: `left` = box left, `top` = box bottom
(lines 43-46). No document-level listener is attached at construction
(`_assignListeners` only adds the box-canvas `mousedown` listener). -/
def newLiveDropMenu (o : MenuOptions) (canvasRect : Rect) : LiveDropMenu :=
  { menuItems := o.menuItems.getD []
    selectedItemNum := 0
    hoverItemNum := -1
    observers := []
    UIbackgroundColor := (jsOr o.backgroundColor o.UIbackgroundColor).getD defaultBackgroundColor
    UIfontColor := (jsOr o.fontColor o.UIfontColor).getD defaultFontColor
    UIfontSize := (jsOr o.fontSize o.UIfontSize).getD defaultFontSize
    UIfontFamily := (jsOr o.fontFamily o.UIfontFamily).getD defaultFontFamily
    UImenuItemFontSize := (jsOr o.menuItemFontSize o.UImenuItemFontSize).getD defaultFontSize
    UImenuItemFntFamily := (jsOr o.menuItemFontFamily o.UImenuItemFontFamily).getD defaultFontFamily
    UIselectedItemBackgroundColor :=
      (jsOr o.selectedItemBackgroundColor o.UIselectedItemBackgroundColor).getD
        defaultSelectedItemBackgroundColor
    UIselectedItemFontColor :=
      (jsOr o.selectedItemFontColor o.UIselectedItemBackgroundColor).getD
        defaultSelectedItemFontColor
    ddVisible := false
    ddLeft := canvasRect.left
    ddTop := canvasRect.bottom
    docListeners := []
    ddMousemoveAttached := false }

/- ===================== LiveDropMenu: interaction listeners ===================== -/

/-- `notifyObservers()` (lines 224-230): calls every observer, in order, with
the current `_selectedItemNum`. Modelled as the list of
((context, func), argument) invocations. -/
def notifyObservers (m : LiveDropMenu) : List ((Nat × Nat) × ℤ) :=
  m.observers.map (fun ob => (ob, m.selectedItemNum))

/-- `mouseDownListener` (lines 160-166): shows the drop-down canvas, attaches
its `mousemove` listener and the document-level `mousedown` listener. It
does not touch the stored overlay position. -/
def mouseDownListener (m : LiveDropMenu) : LiveDropMenu :=
  { m with ddVisible := true
           ddMousemoveAttached := true
           docListeners := addListener m.docListeners DdDocListener.mousedownSecond }

/-- `secondMouseDownListener` (lines 168-172): on a document-level
`mousedown` whose target is not the box canvas, attaches the document-level
`mouseup` listener. -/
def secondMouseDownListener (m : LiveDropMenu) (target : Target) : LiveDropMenu :=
  if target ≠ Target.canvas then
    { m with docListeners := addListener m.docListeners DdDocListener.mouseupUp }
  else m

/-- `mouseMoveListener` (lines 174-178): sets `_hoverItemNum` to
`Math.trunc((clientY - ddCanvasRect.top) / menuItemHeight)` — with no upper
bound check against `menuItems.length` — and redraws. -/
def mouseMoveListener (m : LiveDropMenu) (clientY ddRectTop : ℚ) : LiveDropMenu :=
  { m with hoverItemNum :=
      jsTrunc ((clientY - ddRectTop) / ((getMenuItemHeight m : ℚ))) }

/-- `mouseUpListener` (lines 180-192): hides the drop-down canvas; if
`_hoverItemNum !== -1` and the release target is the drop-down canvas,
commits `_hoverItemNum` into `_selectedItemNum` and notifies observers;
resets `_hoverItemNum` to -1 and removes the document-level `mouseup`
listener. -/
def mouseUpListener (m : LiveDropMenu) (target : Target) :
    LiveDropMenu × List ((Nat × Nat) × ℤ) :=
  let m1 : LiveDropMenu := { m with ddVisible := false }
  if m1.hoverItemNum ≠ -1 ∧ target = Target.ddCanvas then
    let m2 : LiveDropMenu := { m1 with selectedItemNum := m1.hoverItemNum }
    ({ m2 with hoverItemNum := -1
               docListeners := removeListener m2.docListeners DdDocListener.mouseupUp },
     notifyObservers m2)
  else
    ({ m1 with hoverItemNum := -1
               docListeners := removeListener m1.docListeners DdDocListener.mouseupUp },
     [])

/-- Document dispatch of a page `mousedown`: the box canvas's own listener
fires when the target is the box; the event then bubbles to `document`,
where `secondMouseDownListener` runs if it is (by then) attached — a
listener added to `document` while the event is still propagating toward it
is invoked for that same event. -/
def dispatchMouseDown (m : LiveDropMenu) (target : Target) : LiveDropMenu :=
  let m1 := if target = Target.canvas then mouseDownListener m else m
  if DdDocListener.mousedownSecond ∈ m1.docListeners then
    secondMouseDownListener m1 target
  else m1

/-- Document dispatch of a page `mouseup`: `mouseUpListener` runs only while
attached. -/
def dispatchMouseUp (m : LiveDropMenu) (target : Target) :
    LiveDropMenu × List ((Nat × Nat) × ℤ) :=
  if DdDocListener.mouseupUp ∈ m.docListeners then mouseUpListener m target else (m, [])

/-- A `mousemove` over the drop-down canvas reaches `mouseMoveListener` only
while that listener is attached and the canvas is visible (a hidden element
receives no pointer events). -/
def dispatchMouseMoveOverDd (m : LiveDropMenu) (clientY ddRectTop : ℚ) : LiveDropMenu :=
  if m.ddMousemoveAttached ∧ m.ddVisible then mouseMoveListener m clientY ddRectTop else m

/-- `subscribe(context, func)` (lines 204-207): appends the pair to
`_observers`. -/
def subscribe (m : LiveDropMenu) (context func : Nat) : LiveDropMenu :=
  { m with observers := m.observers ++ [(context, func)] }

/-- The runtime error class relevant here. -/
inductive JsRuntimeError
  | typeError
deriving DecidableEq

/-- The property `observers` read by `unsubscribe` (line 215,
`this.observers.filter(...)`): the class declares `_observers` but no
`observers` getter, so in JavaScript this property access yields
`undefined`. -/
def observersPropertyLookup (m : LiveDropMenu) : Option (List (Nat × Nat)) :=
  none

/-- `unsubscribe(context, func)` (lines 214-219): filters
`this.observers` — keeping entries whose context or func is not
reference-identical to the arguments — but reads the nonexistent
`observers` property, so calling `.filter` on `undefined` throws a
`TypeError`. -/
def unsubscribe (m : LiveDropMenu) (context func : Nat) :
    Except JsRuntimeError LiveDropMenu :=
  match observersPropertyLookup m with
  | none => Except.error JsRuntimeError.typeError
  | some l =>
      Except.ok
        { m with
          observers := l.filter (fun ob => decide (ob.1 ≠ context) || decide (ob.2 ≠ func)) }

/- ===================== C2: listener balance ===================== -/

def menuABC : MenuOptions :=
  { menuItems := some ["A", "B", "C"] }

def boxRect : Rect :=
  { left := 10, bottom := 30 }

/-- The freshly constructed three-item menu used in the interaction
scenarios. -/
def menuABC0 : LiveDropMenu := newLiveDropMenu menuABC boxRect

/-- One complete open/close cycle on the fresh menu: `mousedown` on the
closed box (opens the menu and attaches `secondMouseDownListener` to the
document, which then receives the same bubbling event with the box as
target), a second `mousedown` on the overlay (attaches `mouseUpListener`),
and the `mouseup` on the overlay (closes the menu). `mousemove`s are
irrelevant to the listener account — `mouseMoveListener` (lines 174-178)
only writes `_hoverItemNum` and redraws. -/
def menuAfterCycle : LiveDropMenu :=
  (dispatchMouseUp
    (dispatchMouseDown (dispatchMouseDown menuABC0 Target.canvas) Target.ddCanvas)
    Target.ddCanvas).1

/-- C2 (code bug): the Slider's drag cycle does return the document-body
listener list to its empty baseline, but the DropMenu does not: after one
complete open/commit/close cycle on a fresh menu, the document still holds
the `mousedown` listener (`secondMouseDownListener`), which no code path
ever removes — the count is baseline + 1, not the baseline. -/
theorem listener_balance_code_bug :
    sliderDispatchUp (sliderDispatchMove (sliderDispatchMove
        (touchHandleListeners []))) = [] ∧
      menuABC0.docListeners = [] ∧
      menuAfterCycle.ddVisible = false ∧
      menuAfterCycle.docListeners = [DdDocListener.mousedownSecond] ∧
      ¬ menuAfterCycle.docListeners = [] := by
  refine ⟨by decide, by decide, ?_, ?_, ?_⟩ <;> decide

/- ===================== C4: commit and cancel paths ===================== -/

/-- C4: for an open DropMenu with `hoverItemNum = i ≥ 0`, a pointer-up
targeting the overlay canvas commits `i` into `selectedItemNum`, notifies
each observer exactly once, in order, with `i`, hides the overlay and resets
`hoverItemNum` to -1; a pointer-up with any other target hides the overlay,
leaves `selectedItemNum` unchanged, resets `hoverItemNum` to -1 and notifies
no observer. -/
theorem dropmenu_commit_and_cancel (m : LiveDropMenu) (i : ℤ)
    (hopen : m.ddVisible = true) (hh : m.hoverItemNum = i) (hi : 0 ≤ i) :
    ((mouseUpListener m Target.ddCanvas).1.selectedItemNum = i ∧
      (mouseUpListener m Target.ddCanvas).2 = m.observers.map (fun ob => (ob, i)) ∧
      (mouseUpListener m Target.ddCanvas).1.ddVisible = false ∧
      (mouseUpListener m Target.ddCanvas).1.hoverItemNum = -1) ∧
    (∀ t : Target, t ≠ Target.ddCanvas →
      (mouseUpListener m t).1.selectedItemNum = m.selectedItemNum ∧
      (mouseUpListener m t).2 = [] ∧
      (mouseUpListener m t).1.ddVisible = false ∧
      (mouseUpListener m t).1.hoverItemNum = -1) := by
  have hne : m.hoverItemNum ≠ -1 := by rw [hh]; omega
  have hcommit : mouseUpListener m Target.ddCanvas =
      ({ m with ddVisible := false
                selectedItemNum := m.hoverItemNum
                hoverItemNum := -1
                docListeners := removeListener m.docListeners DdDocListener.mouseupUp },
       m.observers.map (fun ob => (ob, m.hoverItemNum))) := by
    unfold mouseUpListener notifyObservers
    rw [if_pos ⟨hne, rfl⟩]
  have hcancel : ∀ t : Target, t ≠ Target.ddCanvas → mouseUpListener m t =
      ({ m with ddVisible := false
                hoverItemNum := -1
                docListeners := removeListener m.docListeners DdDocListener.mouseupUp },
       []) := by
    intro t ht
    unfold mouseUpListener
    rw [if_neg (fun hc => ht hc.2)]
  constructor
  · rw [hcommit]
    exact ⟨hh, by rw [hh], rfl, rfl⟩
  · intro t ht
    rw [hcancel t ht]
    exact ⟨rfl, rfl, rfl, rfl⟩

/-- The open menu of the spec's DropMenu-commit scenario: three items,
hovering item 2, one observer. -/
def menuOpenHover2 : LiveDropMenu :=
  { (subscribe menuABC0 5 7) with ddVisible := true, hoverItemNum := 2 }

/-- Witness for C4: releasing over the overlay commits index 2 and notifies
the single observer once with 2; releasing elsewhere keeps the selection and
notifies nobody. -/
theorem dropmenu_commit_and_cancel_witness :
    (mouseUpListener menuOpenHover2 Target.ddCanvas).1.selectedItemNum = 2 ∧
      (mouseUpListener menuOpenHover2 Target.ddCanvas).2 = [((5, 7), 2)] ∧
      (mouseUpListener menuOpenHover2 Target.other).2 = [] ∧
      (mouseUpListener menuOpenHover2 Target.other).1.selectedItemNum =
        menuOpenHover2.selectedItemNum := by
  have h := dropmenu_commit_and_cancel menuOpenHover2 2 rfl rfl (by norm_num)
  refine ⟨h.1.1, ?_, (h.2 Target.other (by decide)).2.1, (h.2 Target.other (by decide)).1⟩
  rw [h.1.2.1]
  decide

/- ===================== C7: subscribe / unsubscribe ===================== -/

/-- C7 (code bug): `subscribe` does append the (context, func) pair to the
observer list, but every call to `unsubscribe` throws a `TypeError`: line
215 reads `this.observers`, a property the class never defines (the list
lives in `this._observers`), so `.filter` is called on `undefined`. -/
theorem unsubscribe_code_bug :
    (subscribe menuABC0 1 2).observers = [(1, 2)] ∧
      (subscribe (subscribe menuABC0 1 2) 3 4).observers = [(1, 2), (3, 4)] ∧
      unsubscribe (subscribe menuABC0 1 2) 1 2 =
        Except.error JsRuntimeError.typeError := by
  refine ⟨rfl, rfl, rfl⟩

/- ===================== C8: overlay position is cached, not recomputed ===================== -/

def emptyMenuOptions : MenuOptions := {}

/-- C8 counterexample: construct the menu while the closed box's bounding
rectangle is `boxRect` (left 10, bottom 30). By open time the layout has
changed and the box now sits at left 50, bottom 90 — but opening (pointer
down on the closed box) only flips visibility and reuses the position stored
at construction: the overlay stays at (10, 30) and is not at the freshly
computed (50, 90). -/
theorem overlay_position_counterexample :
    (mouseDownListener (newLiveDropMenu emptyMenuOptions boxRect)).ddLeft = 10 ∧
      (mouseDownListener (newLiveDropMenu emptyMenuOptions boxRect)).ddTop = 30 ∧
      ¬ ((mouseDownListener (newLiveDropMenu emptyMenuOptions boxRect)).ddLeft = 50 ∧
          (mouseDownListener (newLiveDropMenu emptyMenuOptions boxRect)).ddTop = 90) := by
  refine ⟨rfl, rfl, ?_⟩
  intro hc
  have h : (10 : ℚ) = 50 := hc.1
  norm_num at h

/-- C8 (amended): the overlay's on-screen position is computed once, at
construction, from the closed box's bounding rectangle at that moment
(overlay left = box left, overlay top = box bottom, LiveDropMenu.js lines
45-46), and every Closed → Open transition (`mouseDownListener`) only makes
the overlay visible, reusing the stored position unchanged. -/
theorem overlay_position_cached (o : MenuOptions) (r : Rect) (m : LiveDropMenu) :
    ((newLiveDropMenu o r).ddLeft = r.left ∧ (newLiveDropMenu o r).ddTop = r.bottom) ∧
      ((mouseDownListener m).ddLeft = m.ddLeft ∧
        (mouseDownListener m).ddTop = m.ddTop ∧
        (mouseDownListener m).ddVisible = true) :=
  ⟨⟨rfl, rfl⟩, rfl, rfl, rfl⟩

/- ===================== C9: option defaults ===================== -/

/-- The recognized Slider construction options (spec section 6). -/
structure SliderOptions where
  minVal : Option ℚ := none
  maxVal : Option ℚ := none
  sliderBodyColor : Option String := none
  sliderHandleColor : Option String := none
  mouseSensitivity : Option ℚ := none
deriving DecidableEq

/-- The Slider's resolved options record `this.o`. -/
structure SliderResolvedOptions where
  minVal : ℚ
  maxVal : ℚ
  sliderBodyColor : String
  sliderHandleColor : String
  mouseSensitivity : ℚ
deriving DecidableEq

def defaultSliderColor : String := "#484848"

/-- `Slider._initOptions` (src/unnamed/part_000 lines 34-46): sets the
defaults `minVal = 0`, `maxVal = 127`, both colors `"#484848"`,
`mouseSensitivity = 1.2`, then `super._initOptions(o)`. Modelled from the
spec for the base-class part (ui/core/widget is not in src/): "Supplied
values override defaults; unspecified fields take defaults." -/
def sliderInitOptions (o : SliderOptions) : SliderResolvedOptions :=
  { minVal := o.minVal.getD 0
    maxVal := o.maxVal.getD 127
    sliderBodyColor := o.sliderBodyColor.getD defaultSliderColor
    sliderHandleColor := o.sliderHandleColor.getD defaultSliderColor
    mouseSensitivity := o.mouseSensitivity.getD (6 / 5) }

/-- C9: for constructions that supply only the spec-recognized option keys
(none of the `UI`-prefixed fallback aliases the constructor also reads),
every recognized field of DropMenu and Slider is determined by its supplied
value and takes its documented default when unspecified; in particular a
DropMenu with `selectedItemBackgroundColor` supplied and
`selectedItemFontColor` unspecified gets the default `"#fff"` selected-item
font color (line 27's fallback reads `o.UIselectedItemBackgroundColor`,
which such a construction does not supply). -/
theorem option_defaults (o : MenuOptions) (r : Rect) (so : SliderOptions)
    (hU : o.UIbackgroundColor = none ∧ o.UIfontColor = none ∧ o.UIfontSize = none ∧
      o.UIfontFamily = none ∧ o.UImenuItemFontSize = none ∧ o.UImenuItemFontFamily = none ∧
      o.UIselectedItemBackgroundColor = none ∧ o.UIselectedItemFontColor = none) :
    ((newLiveDropMenu o r).menuItems = o.menuItems.getD [] ∧
      (newLiveDropMenu o r).UIbackgroundColor = o.backgroundColor.getD defaultBackgroundColor ∧
      (newLiveDropMenu o r).UIfontColor = o.fontColor.getD defaultFontColor ∧
      (newLiveDropMenu o r).UIfontSize = o.fontSize.getD defaultFontSize ∧
      (newLiveDropMenu o r).UIfontFamily = o.fontFamily.getD defaultFontFamily ∧
      (newLiveDropMenu o r).UIselectedItemBackgroundColor =
        o.selectedItemBackgroundColor.getD defaultSelectedItemBackgroundColor ∧
      (newLiveDropMenu o r).UIselectedItemFontColor =
        o.selectedItemFontColor.getD defaultSelectedItemFontColor) ∧
    (o.selectedItemFontColor = none →
      (newLiveDropMenu o r).UIselectedItemFontColor = defaultSelectedItemFontColor) ∧
    ((sliderInitOptions so).minVal = so.minVal.getD 0 ∧
      (sliderInitOptions so).maxVal = so.maxVal.getD 127 ∧
      (sliderInitOptions so).sliderBodyColor = so.sliderBodyColor.getD defaultSliderColor ∧
      (sliderInitOptions so).sliderHandleColor = so.sliderHandleColor.getD defaultSliderColor ∧
      (sliderInitOptions so).mouseSensitivity = so.mouseSensitivity.getD (6 / 5)) := by
  obtain ⟨h1, h2, h3, h4, h5, h6, h7, h8⟩ := hU
  refine ⟨⟨rfl, ?_, ?_, ?_, ?_, ?_, ?_⟩, ?_, rfl, rfl, rfl, rfl, rfl⟩
  · show (jsOr o.backgroundColor o.UIbackgroundColor).getD defaultBackgroundColor = _
    rw [h1, jsOr_none]
  · show (jsOr o.fontColor o.UIfontColor).getD defaultFontColor = _
    rw [h2, jsOr_none]
  · show (jsOr o.fontSize o.UIfontSize).getD defaultFontSize = _
    rw [h3, jsOr_none]
  · show (jsOr o.fontFamily o.UIfontFamily).getD defaultFontFamily = _
    rw [h4, jsOr_none]
  · show (jsOr o.selectedItemBackgroundColor o.UIselectedItemBackgroundColor).getD
        defaultSelectedItemBackgroundColor = _
    rw [h7, jsOr_none]
  · show (jsOr o.selectedItemFontColor o.UIselectedItemBackgroundColor).getD
        defaultSelectedItemFontColor = _
    rw [h7, jsOr_none]
  · intro hnone
    show (jsOr o.selectedItemFontColor o.UIselectedItemBackgroundColor).getD
        defaultSelectedItemFontColor = defaultSelectedItemFontColor
    rw [hnone, h7]
    rfl

def abcColor : String := "#abc"

/-- The construction of the claim's particular case: only
`selectedItemBackgroundColor` supplied. -/
def c9Options : MenuOptions :=
  { selectedItemBackgroundColor := some abcColor }

/-- Witness for C9: with `selectedItemBackgroundColor = "#abc"` supplied and
everything else unspecified, the background takes the supplied value, the
selected-item font color takes the default `"#fff"`, the menu background
takes the default `"#555"`, and an all-default Slider resolves to
`minVal = 0`, `maxVal = 127`. -/
theorem option_defaults_witness :
    (newLiveDropMenu c9Options boxRect).UIselectedItemBackgroundColor = abcColor ∧
      (newLiveDropMenu c9Options boxRect).UIselectedItemFontColor =
        defaultSelectedItemFontColor ∧
      (newLiveDropMenu c9Options boxRect).UIbackgroundColor = defaultBackgroundColor ∧
      (sliderInitOptions {}).minVal = 0 ∧
      (sliderInitOptions {}).maxVal = 127 := by
  have h := option_defaults c9Options boxRect {} ⟨rfl, rfl, rfl, rfl, rfl, rfl, rfl, rfl⟩
  refine ⟨?_, h.2.1 rfl, ?_, ?_, ?_⟩
  · rw [h.1.2.2.2.2.2.1]
    rfl
  · rw [h.1.2.1]
    rfl
  · rw [h.2.2.1]
    rfl
  · rw [h.2.2.2.1]
    rfl

/- ===================== C10: hover index stays below menuItems.length ===================== -/

/-- C10 (amended): `mouseMoveListener` does set `hoverItemNum` to
`Math.trunc(ddCanvasY / (2 * parseInt(menuItemFontSize)))` with no explicit
upper-bound check, and a pointer-up on the overlay commits any
`hoverItemNum ≠ -1` into `selectedItemNum` — but every pointer position over
the overlay satisfies `0 ≤ ddCanvasY < menuItemHeight * menuItems.length`
(the overlay canvas is exactly `menuItemHeight * menuItems.length` CSS
pixels tall, lines 40-41 and 138), so the computed index is always between 0
and `menuItems.length - 1` and an out-of-range `selectedItemNum` cannot
arise from any pointer position. -/
theorem dropmenu_hover_bounded (m : LiveDropMenu) (clientY ddRectTop : ℚ)
    (hfs : 0 < getMenuItemHeight m) (h0 : ddRectTop ≤ clientY)
    (h1 : clientY <
      ddRectTop + ((getMenuItemHeight m : ℚ)) * ((m.menuItems.length : ℚ))) :
    (mouseMoveListener m clientY ddRectTop).hoverItemNum =
        jsTrunc ((clientY - ddRectTop) / ((getMenuItemHeight m : ℚ))) ∧
      0 ≤ (mouseMoveListener m clientY ddRectTop).hoverItemNum ∧
      (mouseMoveListener m clientY ddRectTop).hoverItemNum <
        ((m.menuItems.length : ℤ)) ∧
      (mouseUpListener (mouseMoveListener m clientY ddRectTop)
          Target.ddCanvas).1.selectedItemNum < ((m.menuItems.length : ℤ)) := by
  have hpos : (0 : ℚ) < ((getMenuItemHeight m : ℚ)) := by exact_mod_cast hfs
  have hq0 : 0 ≤ (clientY - ddRectTop) / ((getMenuItemHeight m : ℚ)) :=
    div_nonneg (by linarith) (le_of_lt hpos)
  have hqn : (clientY - ddRectTop) / ((getMenuItemHeight m : ℚ)) <
      ((m.menuItems.length : ℚ)) := by
    rw [div_lt_iff hpos]
    have hc := mul_comm ((getMenuItemHeight m : ℚ)) ((m.menuItems.length : ℚ))
    linarith
  have hjt : jsTrunc ((clientY - ddRectTop) / ((getMenuItemHeight m : ℚ))) =
      ⌊(clientY - ddRectTop) / ((getMenuItemHeight m : ℚ))⌋ := by
    unfold jsTrunc
    rw [if_neg (not_lt.mpr hq0)]
  have hfl0 : 0 ≤ ⌊(clientY - ddRectTop) / ((getMenuItemHeight m : ℚ))⌋ :=
    Int.floor_nonneg.mpr hq0
  have hfln : ⌊(clientY - ddRectTop) / ((getMenuItemHeight m : ℚ))⌋ <
      ((m.menuItems.length : ℤ)) := by
    rw [Int.floor_lt]
    exact_mod_cast hqn
  have hmove : (mouseMoveListener m clientY ddRectTop).hoverItemNum =
      jsTrunc ((clientY - ddRectTop) / ((getMenuItemHeight m : ℚ))) := rfl
  have hne : (mouseMoveListener m clientY ddRectTop).hoverItemNum ≠ -1 := by
    rw [hmove, hjt]
    omega
  have hup : (mouseUpListener (mouseMoveListener m clientY ddRectTop)
      Target.ddCanvas).1.selectedItemNum =
      (mouseMoveListener m clientY ddRectTop).hoverItemNum := by
    unfold mouseUpListener
    rw [if_pos ⟨hne, rfl⟩]
  refine ⟨hmove, ?_, ?_, ?_⟩
  · rw [hmove, hjt]
    exact hfl0
  · rw [hmove, hjt]
    exact hfln
  · rw [hup, hmove, hjt]
    exact hfln

/-- Witness for C10 (amended): the three-item menu (item height 24, overlay
height 72), pointer at vertical offset 71 — inside the bottom row. -/
theorem dropmenu_hover_bounded_witness :
    0 < getMenuItemHeight menuABC0 ∧
      (0 : ℚ) ≤ 71 ∧
      (71 : ℚ) < 0 + ((getMenuItemHeight menuABC0 : ℚ)) *
        ((menuABC0.menuItems.length : ℚ)) ∧
      (mouseMoveListener menuABC0 71 0).hoverItemNum <
        ((menuABC0.menuItems.length : ℤ)) := by
  have hgm : getMenuItemHeight menuABC0 = 24 := rfl
  have hlen : menuABC0.menuItems.length = 3 := rfl
  have hfs : 0 < getMenuItemHeight menuABC0 := by rw [hgm]; norm_num
  have h1 : (71 : ℚ) < 0 + ((getMenuItemHeight menuABC0 : ℚ)) *
      ((menuABC0.menuItems.length : ℚ)) := by
    rw [hgm, hlen]
    norm_num
  exact ⟨hfs, by norm_num, h1,
    (dropmenu_hover_bounded menuABC0 71 0 hfs (by norm_num) h1).2.2.1⟩

/-- C10 counterexample to the claim's conclusion at the concrete three-item
menu (default 12px item font, so item height 24 and overlay height 72):
even at the extreme bottom of the overlay — the last integer CSS pixel
offset 71, and the fractional offset 71.975 — the computed hover index is 2,
the largest valid index, and the committed `selectedItemNum` is 2, which is
not an index ≥ `menuItems.length = 3`. The general bound is
proved for every pointer position over the overlay in the amended theorem. -/
theorem dropmenu_overflow_counterexample :
    (mouseMoveListener menuABC0 71 0).hoverItemNum = 2 ∧
      (mouseMoveListener menuABC0 (2879 / 40) 0).hoverItemNum = 2 ∧
      (mouseUpListener (mouseMoveListener menuABC0 (2879 / 40) 0)
          Target.ddCanvas).1.selectedItemNum = 2 ∧
      ¬ ((menuABC0.menuItems.length : ℤ)) ≤ 2 := by
  have hgm : getMenuItemHeight menuABC0 = 24 := rfl
  have hm1 : (mouseMoveListener menuABC0 71 0).hoverItemNum =
      jsTrunc (((71 : ℚ) - 0) / ((getMenuItemHeight menuABC0 : ℚ))) := rfl
  have hm2 : (mouseMoveListener menuABC0 (2879 / 40) 0).hoverItemNum =
      jsTrunc ((((2879 : ℚ) / 40) - 0) / ((getMenuItemHeight menuABC0 : ℚ))) := rfl
  have hv1 : (mouseMoveListener menuABC0 71 0).hoverItemNum = 2 := by
    rw [hm1, hgm]
    unfold jsTrunc
    rw [if_neg (by norm_num)]
    norm_num
  have hv2 : (mouseMoveListener menuABC0 (2879 / 40) 0).hoverItemNum = 2 := by
    rw [hm2, hgm]
    unfold jsTrunc
    rw [if_neg (by norm_num)]
    norm_num
  have hne : (mouseMoveListener menuABC0 (2879 / 40) 0).hoverItemNum ≠ -1 := by
    rw [hv2]
    omega
  have hup : (mouseUpListener (mouseMoveListener menuABC0 (2879 / 40) 0)
      Target.ddCanvas).1.selectedItemNum =
      (mouseMoveListener menuABC0 (2879 / 40) 0).hoverItemNum := by
    unfold mouseUpListener
    rw [if_pos ⟨hne, rfl⟩]
  refine ⟨hv1, hv2, ?_, by decide⟩
  rw [hup, hv2]
